import Mathlib

/-!
Verification development for the Mail-Certificate backend
(certificate generation and feedback-gated delivery pipeline).

The definitions below are a shallow embedding, translated from the Python
source under src/backend/app:
  - utils/fonts.py                (font resolver)
  - services/certificate_service.py (template compositor, email dispatcher)
  - services/template_service.py  (preview renderer)
  - api/feedback.py               (feedback token redemption)
  - api/send.py                   (batch dispatch engine)

Effectful library calls (filesystem, PIL, SMTP, MongoDB, clock, randomness)
are modelled by explicit environments: each fallible I/O call becomes a
field of an environment record giving that call's outcome, and MongoDB
collections become in-memory lists with find_one / update_one / upsert
modelled as first-match operations, matching MongoDB's semantics on these
queries.  Machine integers do not overflow in the source's ranges, so
Python ints are modelled by Int / Nat directly.
-/

/-! ## Python primitive semantics -/

/-- Python floor division a // b (rounds toward negative infinity). -/
def pydiv (a b : Int) : Int := Int.fdiv a b

/-- Decides whether pat is a prefix of s (character lists). -/
def listStartsWith (pat s : List Char) : Bool :=
  match pat, s with
  | [], _ => true
  | p :: ps, c :: cs => p == c && listStartsWith ps cs
  | _ :: _, [] => false

/-- Worker for replaceAll, structurally recursive on a fuel argument that
bounds the number of characters still to be consumed (so the function
evaluates by kernel reduction); always called with fuel = s.length, and
for a non-empty pattern each step consumes at least one character, so the
fuel-exhausted arm is never reached from replaceAll. -/
def replaceAllAux (pat rep : List Char) : Nat → List Char → List Char
  | _, [] => []
  | 0, s => s
  | fuel + 1, c :: rest =>
    if !pat.isEmpty && listStartsWith pat (c :: rest) then
      rep ++ replaceAllAux pat rep fuel (rest.drop (pat.length - 1))
    else
      c :: replaceAllAux pat rep fuel rest

/-- Python str.replace(pat, rep) on character lists: scans left to right,
replacing non-overlapping occurrences of pat by rep.  Only ever used with a
non-empty pattern (an empty pattern is treated as matching nowhere). -/
def replaceAll (pat rep s : List Char) : List Char :=
  replaceAllAux pat rep s.length s

/-- Python str.replace on strings. -/
def pyReplace (s pat rep : String) : String :=
  String.mk (replaceAll pat.data rep.data s.data)

/-! ## MongoDB collection primitives (in-memory model) -/

/-- Applies f to the first element satisfying p (collection.update_one with
a $set: MongoDB updates the first matching document only). -/
def updateFirst (p : α → Bool) (f : α → α) : List α → List α
  | [] => []
  | x :: xs => if p x then f x :: xs else x :: updateFirst p f xs

/-- MongoDB update_one with upsert=True whose $set assigns every field:
update the first matching document, or insert the given document when no
document matches. -/
def upsertDoc (p : α → Bool) (f : α → α) (newDoc : α) (l : List α) : List α :=
  if l.any p then updateFirst p f l else l ++ [newDoc]

/-! ## Template compositor (services/certificate_service.py and
services/template_service.py) -/

/-- Result of PIL ImageDraw.textbbox: the tight bounding box (left, top,
right, bottom) of the rendered text.  PIL measures any string, including
the empty string (which yields a zero-size box), without raising. -/
structure Bbox where
  left : Int
  top : Int
  right : Int
  bottom : Int
deriving DecidableEq, Repr

/-- Draw position computed by CertificateService.generate_certificate
(lines 42-55): centered_x = (cert.width - text_width) // 2 and
adjusted_y = text_y - (text_height // 2). -/
def drawPosFinal (surfaceWidth : Nat) (bbox : Bbox) (text_y : Int) : Int × Int :=
  let text_width := bbox.right - bbox.left
  let text_height := bbox.bottom - bbox.top
  let centered_x := pydiv ((surfaceWidth : Int) - text_width) 2
  let adjusted_y := text_y - pydiv text_height 2
  (centered_x, adjusted_y)

/-- Draw position computed by TemplateService.generate_preview
(lines 91-97): centered_x = (img.width - text_width) // 2 and the caller's
y is used directly as the top of the text. -/
def drawPosPreview (surfaceWidth : Nat) (bbox : Bbox) (y : Int) : Int × Int :=
  let text_width := bbox.right - bbox.left
  let centered_x := pydiv ((surfaceWidth : Int) - text_width) 2
  (centered_x, y)

/-! ## Font resolver (utils/fonts.py) -/

/-- Value returned by the font resolver: either a FreeType font loaded from
a concrete path at the requested size, or PIL's embedded default bitmap
font (ImageFont.load_default()). -/
inductive PILFont where
  | truetype (path : String) (size : Nat)
  | default
deriving DecidableEq, Repr

/-- Environment for the font resolver's effectful calls. -/
structure FontEnv where
  /-- os.path.exists(path) / pathlib Path.exists(). -/
  pathExists : String → Bool
  /-- Whether ImageFont.truetype(path, size) succeeds at this path (False
  models the call raising, e.g. on a corrupt file). -/
  truetypeOk : String → Bool
  /-- Whether urllib.request.urlretrieve(url, ...) succeeds for this url. -/
  downloadOk : String → Bool

/-- SYSTEM_FONT_PATHS table from utils/fonts.py. -/
def SYSTEM_FONT_PATHS : List (String × List String) :=
  [("Georgia", ["/System/Library/Fonts/Georgia.ttf", "/Library/Fonts/Georgia.ttf"]),
   ("Times New Roman", ["/System/Library/Fonts/Times.ttc", "/Library/Fonts/Times New Roman.ttf"]),
   ("Palatino Linotype", ["/System/Library/Fonts/Palatino.ttc", "/Library/Fonts/Palatino.ttf"]),
   ("Book Antiqua", ["/Library/Fonts/Book Antiqua.ttf"]),
   ("Garamond", ["/System/Library/Fonts/Supplemental/Garamond.ttf", "/Library/Fonts/Garamond.ttf"]),
   ("Arial", ["/System/Library/Fonts/Supplemental/Arial.ttf", "/Library/Fonts/Arial.ttf"]),
   ("Helvetica", ["/System/Library/Fonts/Helvetica.ttc"]),
   ("Verdana", ["/System/Library/Fonts/Supplemental/Verdana.ttf", "/Library/Fonts/Verdana.ttf"]),
   ("Trebuchet MS", ["/System/Library/Fonts/Supplemental/Trebuchet MS.ttf", "/Library/Fonts/Trebuchet MS.ttf"]),
   ("Century Gothic", ["/Library/Fonts/Century Gothic.ttf"]),
   ("Lucida Sans", ["/Library/Fonts/Lucida Sans.ttf"]),
   ("Courier New", ["/System/Library/Fonts/Supplemental/Courier New.ttf", "/Library/Fonts/Courier New.ttf"]),
   ("Brush Script MT", ["/System/Library/Fonts/Supplemental/Brush Script.ttf", "/Library/Fonts/Brush Script MT.ttf"]),
   ("Copperplate", ["/System/Library/Fonts/Supplemental/Copperplate.ttc", "/System/Library/Fonts/Copperplate.ttc", "/Library/Fonts/Copperplate.ttf"]),
   ("Papyrus", ["/System/Library/Fonts/Supplemental/Papyrus.ttc", "/Library/Fonts/Papyrus.ttf"])]

/-- GOOGLE_FONTS table from core/config.py (font name to download url). -/
def GOOGLE_FONTS : List (String × String) :=
  [("Playfair Display", "https://github.com/google/fonts/raw/main/ofl/playfairdisplay/PlayfairDisplay%5Bwght%5D.ttf"),
   ("Cinzel", "https://github.com/google/fonts/raw/main/ofl/cinzel/Cinzel%5Bwght%5D.ttf"),
   ("Great Vibes", "https://github.com/google/fonts/raw/main/ofl/greatvibes/GreatVibes-Regular.ttf"),
   ("Cormorant Garamond", "https://github.com/google/fonts/raw/main/ofl/cormorantgaramond/CormorantGaramond-Bold.ttf"),
   ("Roboto", "https://github.com/google/fonts/raw/main/apache/roboto/static/Roboto-Bold.ttf"),
   ("Bebas Neue", "https://github.com/google/fonts/raw/main/ofl/bebasneue/BebasNeue-Regular.ttf"),
   ("Oswald", "https://github.com/google/fonts/raw/main/ofl/oswald/Oswald%5Bwght%5D.ttf"),
   ("Montserrat", "https://github.com/google/fonts/raw/main/ofl/montserrat/Montserrat%5Bwght%5D.ttf"),
   ("Press Start 2P", "https://github.com/google/fonts/raw/main/ofl/pressstart2p/PressStart2P-Regular.ttf"),
   ("Silkscreen", "https://github.com/google/fonts/raw/main/ofl/silkscreen/Silkscreen-Regular.ttf"),
   ("Orbitron", "https://github.com/google/fonts/raw/main/ofl/orbitron/Orbitron%5Bwght%5D.ttf"),
   ("Poppins", "https://github.com/google/fonts/raw/main/ofl/poppins/Poppins-Bold.ttf")]

/-- SYSTEM_FONTS fallback list from core/config.py. -/
def SYSTEM_FONTS : List String :=
  ["/System/Library/Fonts/Supplemental/Arial.ttf",
   "/System/Library/Fonts/Supplemental/Times New Roman Bold.ttf",
   "/Library/Fonts/Georgia.ttf",
   "C:/Windows/Fonts/times.ttf",
   "C:/Windows/Fonts/timesbd.ttf",
   "/usr/share/fonts/truetype/dejavu/DejaVuSerif-Bold.ttf"]

/-- Lookup in an association list (Python dict membership plus indexing). -/
def lookupDict (d : List (String × α)) (k : String) : Option α :=
  (d.find? (fun kv => kv.1 == k)).map (fun kv => kv.2)

/-- Path of the local font cache file, settings.FONTS_DIR / filename. -/
def fontsDirPath (filename : String) : String := "fonts/" ++ filename

/-- download_google_font from utils/fonts.py: return the cached path if the
file already exists, otherwise download it (returning None on failure,
after printing a message). -/
def download_google_font (env : FontEnv) (font_name url : String) : Option String :=
  let font_filename := pyReplace font_name " " "_" ++ ".ttf"
  let font_path := fontsDirPath font_filename
  if env.pathExists font_path then
    some font_path
  else if env.downloadOk url then
    some font_path
  else
    none

/-- For-loop over candidate paths inside get_font: skip paths that do not
exist; try ImageFont.truetype on an existing path and skip it (continue)
when loading raises. -/
def tryFontPaths (env : FontEnv) (size : Nat) : List String → Option PILFont
  | [] => none
  | path :: rest =>
    if env.pathExists path then
      if env.truetypeOk path then
        some (PILFont.truetype path size)
      else
        tryFontPaths env size rest
    else
      tryFontPaths env size rest

/-- get_font from utils/fonts.py.  The second component records whether the
final warning ("using default") was printed.  Every exception raised by
ImageFont.truetype is caught in the source (try/except continue or pass),
so the translation is a total function into PILFont. -/
def get_font (env : FontEnv) (font_name : String) (size : Nat) : PILFont × Bool :=
  match
    (match lookupDict SYSTEM_FONT_PATHS font_name with
     | some paths => tryFontPaths env size paths
     | none => none)
  with
  | some f => (f, false)
  | none =>
    match
      (match lookupDict GOOGLE_FONTS font_name with
       | some url =>
         match download_google_font env font_name url with
         | some font_path =>
           if env.truetypeOk font_path then
             some (PILFont.truetype font_path size)
           else
             none
         | none => none
       | none => none)
    with
    | some f => (f, false)
    | none =>
      match tryFontPaths env size SYSTEM_FONTS with
      | some f => (f, false)
      | none => (PILFont.default, true)

/-- Full candidate list that get_font works through, in resolution order:
existing system paths registered for the name, then the cached or freshly
downloaded web-font path (when the name is a configured Google font), then
existing generic fallback paths. -/
def fontCandidates (env : FontEnv) (font_name : String) : List String :=
  (match lookupDict SYSTEM_FONT_PATHS font_name with
   | some paths => paths.filter env.pathExists
   | none => [])
  ++ (match lookupDict GOOGLE_FONTS font_name with
      | some url =>
        match download_google_font env font_name url with
        | some p => [p]
        | none => []
      | none => [])
  ++ SYSTEM_FONTS.filter env.pathExists

/-! ## Helper lemmas -/

theorem tryFontPaths_eq_find (env : FontEnv) (size : Nat) (l : List String) :
    tryFontPaths env size l =
      ((l.filter env.pathExists).find? env.truetypeOk).map
        (fun p => PILFont.truetype p size) := by
  induction l with
  | nil => simp [tryFontPaths]
  | cons p rest ih =>
    by_cases hex : env.pathExists p
    · by_cases hok : env.truetypeOk p
      · simp [tryFontPaths, hex, hok, List.find?]
      · simp [tryFontPaths, hex, hok, List.find?, ih]
    · simp [tryFontPaths, hex, ih]

theorem pydiv_two_floor (a x : Int) (hx : x = pydiv a 2) :
    2 * x ≤ a ∧ a < 2 * x + 2 := by
  subst hx
  unfold pydiv
  rw [Int.fdiv_eq_ediv a (by norm_num)]
  omega

/-! ## Claim C5 and C6: text placement -/

/-- C5: for a name measured to width w = bbox.right - bbox.left on a
surface of width W, both the final compositor (generate_certificate) and
the preview renderer (generate_preview) draw at the same x coordinate,
and that x is exactly floor((W - w) / 2) (characterized by the two
inequalities 2x <= W - w < 2x + 2, which pin down the floor for even and
odd differences alike). -/
theorem drawPos_centering_floor (W : Nat) (bbox : Bbox) (yF yP : Int) :
    (drawPosFinal W bbox yF).1 = (drawPosPreview W bbox yP).1
    ∧ 2 * (drawPosFinal W bbox yF).1 ≤ (W : Int) - (bbox.right - bbox.left)
    ∧ (W : Int) - (bbox.right - bbox.left) < 2 * (drawPosFinal W bbox yF).1 + 2 := by
  have h := pydiv_two_floor ((W : Int) - (bbox.right - bbox.left))
    ((drawPosFinal W bbox yF).1) rfl
  exact ⟨rfl, h.1, h.2⟩

/-- C6: with measured text height h = bbox.bottom - bbox.top, the final
compositor draws at vertical coordinate Y - floor(h / 2) (first two
conjuncts: Y minus the drawn y is exactly floor(h / 2), so Y is the
vertical center), while the preview renderer draws at Y exactly (third
conjunct); the two drawn y coordinates differ by exactly floor(h / 2)
(fourth conjunct). -/
theorem drawPos_vertical_asymmetry (W : Nat) (bbox : Bbox) (Y : Int) :
    2 * (Y - (drawPosFinal W bbox Y).2) ≤ bbox.bottom - bbox.top
    ∧ bbox.bottom - bbox.top < 2 * (Y - (drawPosFinal W bbox Y).2) + 2
    ∧ (drawPosPreview W bbox Y).2 = Y
    ∧ (drawPosPreview W bbox Y).2 - (drawPosFinal W bbox Y).2
        = pydiv (bbox.bottom - bbox.top) 2 := by
  have hdef : (drawPosFinal W bbox Y).2 = Y - pydiv (bbox.bottom - bbox.top) 2 := rfl
  have hprev : (drawPosPreview W bbox Y).2 = Y := rfl
  have h := pydiv_two_floor (bbox.bottom - bbox.top)
    (pydiv (bbox.bottom - bbox.top) 2) rfl
  refine ⟨?_, ?_, hprev, ?_⟩ <;> simp only [hdef, hprev] <;> omega

/-! ## Claim C7: font resolver -/

/-- C7: the font resolver is total (never raises: every truetype failure
is caught in the source, and the translation returns a font for every
environment, name and size) and resolves to the first loadable candidate
in the documented order: known system-font paths that exist, then the
cached or downloaded web font, then existing generic fallback paths;
any candidate that exists but fails to load is skipped (find? moves past
it); when no candidate loads, the embedded default font is returned and
the fallback warning flag is the only signal (second component true). -/
theorem get_font_total_resolution_order (env : FontEnv) (font_name : String) (size : Nat) :
    get_font env font_name size =
      match (fontCandidates env font_name).find? env.truetypeOk with
      | some p => (PILFont.truetype p size, false)
      | none => (PILFont.default, true) := by
  unfold get_font fontCandidates
  cases hsys : lookupDict SYSTEM_FONT_PATHS font_name with
  | none =>
    cases hg : lookupDict GOOGLE_FONTS font_name with
    | none =>
      cases hB : (SYSTEM_FONTS.filter env.pathExists).find? env.truetypeOk <;>
        simp [tryFontPaths_eq_find, List.find?_append, hB]
    | some url =>
      cases hdl : download_google_font env font_name url with
      | none =>
        cases hB : (SYSTEM_FONTS.filter env.pathExists).find? env.truetypeOk <;>
          simp [tryFontPaths_eq_find, List.find?_append, hdl, hB]
      | some p =>
        by_cases hok : env.truetypeOk p
        · simp [tryFontPaths_eq_find, List.find?_append, List.find?, hdl, hok]
        · cases hB : (SYSTEM_FONTS.filter env.pathExists).find? env.truetypeOk <;>
            simp [tryFontPaths_eq_find, List.find?_append, List.find?, hdl, hok, hB]
  | some paths =>
    cases hA : (paths.filter env.pathExists).find? env.truetypeOk with
    | some q =>
      simp [tryFontPaths_eq_find, List.find?_append, hA]
    | none =>
      cases hg : lookupDict GOOGLE_FONTS font_name with
      | none =>
        cases hB : (SYSTEM_FONTS.filter env.pathExists).find? env.truetypeOk <;>
          simp [tryFontPaths_eq_find, List.find?_append, hA, hB]
      | some url =>
        cases hdl : download_google_font env font_name url with
        | none =>
          cases hB : (SYSTEM_FONTS.filter env.pathExists).find? env.truetypeOk <;>
            simp [tryFontPaths_eq_find, List.find?_append, hA, hdl, hB]
        | some p =>
          by_cases hok : env.truetypeOk p
          · simp [tryFontPaths_eq_find, List.find?_append, List.find?, hA, hdl, hok]
          · cases hB : (SYSTEM_FONTS.filter env.pathExists).find? env.truetypeOk <;>
              simp [tryFontPaths_eq_find, List.find?_append, List.find?, hA, hdl, hok, hB]

/-! ## Email dispatcher (services/certificate_service.py) -/

/-- Message handed to smtplib for delivery: the observable output of
CertificateService.send_certificate / send_email (EmailMessage fields plus
the attachment, when any). -/
structure EmailMsg where
  subject : String
  from_addr : String
  to_addr : String
  body : String
  attachment_path : Option String
  attachment_filename : Option String
deriving DecidableEq, Repr

/-- CertificateService.send_certificate: substitutes the literal
placeholders, attaches the PDF under a filename built from the name with
spaces replaced by underscores, and hands the message to SMTP.  The
default parameter values are those of the source. -/
def send_certificate (name email : String) (pdf_path : String)
    (sender_email app_password : String)
    (subject : String := "Your Participation Certificate")
    (body : String := "Congratulations! Please find attached your participation certificate.")
    (event_name : String := "") : EmailMsg :=
  let email_subject := pyReplace (pyReplace subject "{name}" name) "{event_name}" event_name
  let email_body := pyReplace (pyReplace body "{name}" name) "{event_name}" event_name
  { subject := email_subject
    from_addr := sender_email
    to_addr := email
    body := email_body
    attachment_path := some pdf_path
    attachment_filename := some ("Certificate_" ++ pyReplace name " " "_" ++ ".pdf") }

/-- CertificateService.send_email: plain text message, no attachment. -/
def send_email (to_email sender_email app_password subject body : String) : EmailMsg :=
  { subject := subject
    from_addr := sender_email
    to_addr := to_email
    body := body
    attachment_path := none
    attachment_filename := none }

/-! ## Helper lemmas on single-character replacement -/

theorem replaceAllAux_single (a b : Char) :
    ∀ (fuel : Nat) (s : List Char), s.length ≤ fuel →
      replaceAllAux [a] [b] fuel s = s.map (fun c => if c = a then b else c) := by
  intro fuel
  induction fuel with
  | zero =>
    intro s hs
    cases s with
    | nil => simp [replaceAllAux]
    | cons c rest => simp at hs
  | succ n ih =>
    intro s hs
    cases s with
    | nil => simp [replaceAllAux]
    | cons c rest =>
      simp only [List.length_cons] at hs
      by_cases h : a = c
      · subst h
        simp [replaceAllAux, listStartsWith, ih rest (by omega)]
      · simp [replaceAllAux, listStartsWith, h, ih rest (by omega), Ne.symm h]

theorem replaceAll_single (a b : Char) (s : List Char) :
    replaceAll [a] [b] s = s.map (fun c => if c = a then b else c) :=
  replaceAllAux_single a b s.length s (Nat.le_refl _)

/-! ## Claim C9: attachment filename -/

/-- C9 counterexample: the source builds the attachment filename with
name.replace(' ', '_'), so a hyphen in the name is kept verbatim; for the
name "Ann-Marie" the filename is "Certificate_Ann-Marie.pdf", not
"Certificate_Ann_Marie.pdf" with an underscore in the separator's place
as the claim asserts. -/
theorem send_certificate_separator_counterexample :
    (send_certificate "Ann-Marie" "ann@example.com" "output/e1/pdf/Ann-Marie.pdf"
        "organizer@example.com" "secret" "Subject" "Body").attachment_filename
      = some "Certificate_Ann-Marie.pdf"
    ∧ (send_certificate "Ann-Marie" "ann@example.com" "output/e1/pdf/Ann-Marie.pdf"
        "organizer@example.com" "secret" "Subject" "Body").attachment_filename
      ≠ some "Certificate_Ann_Marie.pdf" := by
  constructor
  · rfl
  · decide

/-- C9 (amended): the attachment filename is exactly "Certificate_"
followed by the participant's name with each space (and only spaces)
replaced by an underscore, followed by ".pdf"; every non-space character
of the name, separators such as hyphens and slashes included, is kept
unchanged in its position. -/
theorem send_certificate_attachment_filename
    (name email pdf_path sender pw subj body ev : String) :
    (send_certificate name email pdf_path sender pw subj body ev).attachment_filename
      = some ("Certificate_"
                ++ String.mk (name.data.map (fun c => if c = ' ' then '_' else c))
                ++ ".pdf") := by
  have hrep : pyReplace name " " "_"
      = String.mk (name.data.map (fun c => if c = ' ' then '_' else c)) := by
    unfold pyReplace
    rw [show (" " : String).data = [' '] from rfl,
        show ("_" : String).data = ['_'] from rfl, replaceAll_single]
  simp [send_certificate, hrep]

/-! ## Template compositor, full embedding -/

/-- Environment for the compositor's effectful library calls. -/
structure RenderEnv where
  /-- Image.open(path).convert("RGB"): the template surface as its pixel
  dimensions (width, height), or the message of the raised exception
  (FileNotFoundError, UnidentifiedImageError, ...). -/
  openImage : String → Except String (Nat × Nat)
  /-- pdf2image.convert_from_path(path, dpi=300) first page, converted to
  RGB (final generation). -/
  convertPdf : String → Except String (Nat × Nat)
  /-- pdf2image.convert_from_path(path, dpi=150) first page, converted to
  RGB (interactive preview). -/
  convertPdfPreview : String → Except String (Nat × Nat)
  /-- ImageDraw.textbbox((0, 0), text, font): total - PIL measures every
  string, the empty string included (zero-size box), without raising. -/
  textbbox : PILFont → String → Bbox

/-- Value of a hexadecimal digit, as accepted by Python int(x, 16). -/
def hexDigitVal (c : Char) : Option Nat :=
  let n := c.toNat
  if 48 ≤ n ∧ n ≤ 57 then
    some (n - 48)
  else if 97 ≤ n ∧ n ≤ 102 then
    some (n - 87)
  else if 65 ≤ n ∧ n ≤ 70 then
    some (n - 55)
  else
    none

/-- Python int(x, 16) on a plain digit string: raises on an empty string
or any non-hex-digit character (the source only ever receives slices of a
user-supplied hex colour here). -/
def int16 (acc : Nat) : List Char → Except String Nat
  | [] => .ok acc
  | c :: cs =>
    match hexDigitVal c with
    | some v => int16 (acc * 16 + v) cs
    | none => .error "invalid literal for int() with base 16"

/-- Python int(x, 16), rejecting the empty string. -/
def pyInt16 (s : List Char) : Except String Nat :=
  if s.isEmpty then .error "invalid literal for int() with base 16"
  else int16 0 s

/-- hex_to_rgb from utils/fonts.py: strip leading '#' characters and parse
the three two-character slices at offsets 0, 2, 4. -/
def hex_to_rgb (hex_color : String) : Except String (Nat × Nat × Nat) := do
  let h := hex_color.data.dropWhile (fun c => c = '#')
  let r ← pyInt16 ((h.drop 0).take 2)
  let g ← pyInt16 ((h.drop 2).take 2)
  let b ← pyInt16 ((h.drop 4).take 2)
  .ok (r, g, b)

/-- Observable result of CertificateService.generate_certificate: where
and what it drew, the drawing colour, and the pixel dimensions of the two
persisted artifacts (the PDF page is sized exactly to the raster). -/
structure CertArtifacts where
  draw_x : Int
  draw_y : Int
  drawn_text : String
  color_rgb : Nat × Nat × Nat
  png_width : Nat
  png_height : Nat
  pdf_width : Nat
  pdf_height : Nat
deriving DecidableEq, Repr

/-- CertificateService.generate_certificate (certificate_service.py lines
14-66): load the template (first PDF page at dpi 300, or the image),
resolve the font, convert the colour, measure the name, draw it centered
horizontally with text_y as the vertical center, and persist the raster
and a PDF of identical pixel dimensions.  Exceptions raised by template
loading or colour parsing propagate to the caller; text measuring and
drawing do not raise (PIL handles any string, the empty one included).
The text_x parameter is ignored by the source.  Persistence I/O is outside
the embedding; the returned artifacts describe what is written. -/
def generate_certificate (renv : RenderEnv) (fenv : FontEnv)
    (template_path template_format name : String) (text_x text_y : Int)
    (font_name : String) (font_size : Nat) (text_color : String)
    (output_png output_pdf : String) : Except String CertArtifacts :=
  match
    (if template_format = "pdf" then renv.convertPdf template_path
     else renv.openImage template_path)
  with
  | .error e => .error e
  | .ok (w, h) =>
    let font := (get_font fenv font_name font_size).1
    match hex_to_rgb text_color with
    | .error e => .error e
    | .ok color_rgb =>
      let bbox := renv.textbbox font name
      let pos := drawPosFinal w bbox text_y
      .ok { draw_x := pos.1
            draw_y := pos.2
            drawn_text := name
            color_rgb := color_rgb
            png_width := w
            png_height := h
            pdf_width := w
            pdf_height := h }

/-- Observable result of TemplateService.generate_preview. -/
structure PreviewArtifacts where
  draw_x : Int
  draw_y : Int
  drawn_text : String
  color_rgb : Nat × Nat × Nat
  png_width : Nat
  png_height : Nat
deriving DecidableEq, Repr

/-- TemplateService.generate_preview (template_service.py lines 62-103):
load the template (first PDF page at dpi 150, or the image), resolve the
font, convert the colour, measure the text, and draw it centered
horizontally at the caller's y used directly as the text top.  The x
parameter is ignored by the source. -/
def generate_preview (renv : RenderEnv) (fenv : FontEnv)
    (template_path template_format text : String) (x y : Int)
    (font_name : String) (font_size : Nat) (color : String) :
    Except String PreviewArtifacts :=
  match
    (if template_format = "pdf" then renv.convertPdfPreview template_path
     else renv.openImage template_path)
  with
  | .error e => .error e
  | .ok (w, h) =>
    let font := (get_font fenv font_name font_size).1
    match hex_to_rgb color with
    | .error e => .error e
    | .ok color_rgb =>
      let bbox := renv.textbbox font text
      let pos := drawPosPreview w bbox y
      .ok { draw_x := pos.1
            draw_y := pos.2
            drawn_text := text
            color_rgb := color_rgb
            png_width := w
            png_height := h }

/-! ## Claim C8: compositor failure modes -/

/-- Render environment for the empty-name run: the template is a readable
1000 x 700 image; textbbox reflects PIL, which measures the empty string
to a zero-size box instead of raising. -/
def emptyNameRenderEnv : RenderEnv :=
  { openImage := fun _ => .ok (1000, 700)
    convertPdf := fun _ => .error "poppler not installed"
    convertPdfPreview := fun _ => .error "poppler not installed"
    textbbox := fun _ s =>
      if s.isEmpty then { left := 0, top := 0, right := 0, bottom := 0 }
      else { left := 0, top := 0, right := 10 * (s.length : Int), bottom := 20 } }

/-- Font environment for the empty-name run: no font file is available, so
the resolver falls back to the embedded default (and never raises). -/
def emptyNameFontEnv : FontEnv :=
  { pathExists := fun _ => false
    truetypeOk := fun _ => false
    downloadOk := fun _ => false }

/-- C8 counterexample: generating a certificate for the empty participant
name does NOT raise - the source has no emptiness check, PIL measures ""
to a zero-size box, and generation completes, returning full-size
artifacts that carry no text (drawn_text = ""), contradicting the claim
that an empty name is surfaced as an error. -/
theorem generate_certificate_empty_name_counterexample :
    generate_certificate emptyNameRenderEnv emptyNameFontEnv
        "uploads/s1_template_cert.png" "image" "" 0 500 "Roboto" 60 "#000000"
        "output/e1/png/.png" "output/e1/pdf/.pdf"
      = .ok { draw_x := 500, draw_y := 500, drawn_text := "",
              color_rgb := (0, 0, 0), png_width := 1000, png_height := 700,
              pdf_width := 1000, pdf_height := 700 } := by
  rfl

/-- C8 (amended): exceptions from template loading - a missing or corrupt
template image, or an unreadable document template - propagate to the
caller of generate_certificate (there is no try/except around them); but
an empty participant name is not an error: with a loadable template,
generation for the empty name completes and returns .ok artifacts whose
drawn text is empty, rather than raising. -/
theorem generate_certificate_failure_modes
    (renv : RenderEnv) (fenv : FontEnv) (tp tf name : String) (tx ty : Int)
    (fn : String) (fsz : Nat) (color opng opdf : String) (e : String) :
    (tf ≠ "pdf" → renv.openImage tp = .error e →
      generate_certificate renv fenv tp tf name tx ty fn fsz color opng opdf
        = .error e)
    ∧ (tf = "pdf" → renv.convertPdf tp = .error e →
      generate_certificate renv fenv tp tf name tx ty fn fsz color opng opdf
        = .error e)
    ∧ (∀ w h rgb, tf ≠ "pdf" → renv.openImage tp = .ok (w, h) →
      hex_to_rgb color = .ok rgb →
      generate_certificate renv fenv tp tf "" tx ty fn fsz color opng opdf
        = .ok { draw_x := (drawPosFinal w (renv.textbbox (get_font fenv fn fsz).1 "") ty).1
                draw_y := (drawPosFinal w (renv.textbbox (get_font fenv fn fsz).1 "") ty).2
                drawn_text := ""
                color_rgb := rgb
                png_width := w
                png_height := h
                pdf_width := w
                pdf_height := h }) := by
  refine ⟨?_, ?_, ?_⟩
  · intro h1 h2
    simp [generate_certificate, h1, h2]
  · intro h1 h2
    simp [generate_certificate, h1, h2]
  · intro w h rgb h1 h2 h3
    simp [generate_certificate, h1, h2, h3]

/-! ## Data model (models/db_models.py, as stored in MongoDB) -/

/-- One feedback answer ({question_id, answer}); the source allows str or
int answers, both opaque to the pipeline, modelled as String. -/
structure FeedbackAnswer where
  question_id : String
  answer : String
deriving DecidableEq, Repr

/-- Document of the feedback collection (FeedbackInDB). -/
structure FeedbackDoc where
  participant_id : String
  event_id : String
  token : String
  answers : List FeedbackAnswer
  submitted_at : Option Nat
deriving DecidableEq, Repr

/-- Document of the participants collection (ParticipantInDB). -/
structure Participant where
  id : String
  event_id : String
  name : String
  email : String
  status : String
  feedback_token : Option String
  feedback_submitted_at : Option Nat
  certificate_sent_at : Option Nat
  error_message : Option String
deriving DecidableEq, Repr

/-- text_settings sub-document of an event. -/
structure EventTextSettings where
  y_position : Int
  font_name : String
  font_size : Nat
  text_color : String
deriving DecidableEq, Repr

/-- Document of the events collection (EventInDB).  Fields the code reads
through dict.get with a default are modelled as Option, none meaning the
key is absent and the code's default applies. -/
structure Event where
  id : String
  user_id : String
  name : String
  template_path : Option String
  template_format : String
  text_settings : Option EventTextSettings
  feedback_enabled : Option Bool
  email_subject : Option String
  email_body : Option String
  feedback_email_subject : Option String
  feedback_email_body : Option String
  status : String
deriving DecidableEq, Repr

/-- email_settings sub-document of a user. -/
structure EmailSettings where
  email : String
  app_password_encrypted : String
deriving DecidableEq, Repr

/-- Document of the users collection (the fields the pipeline reads). -/
structure User where
  id : String
  email_settings : Option EmailSettings
deriving DecidableEq, Repr

/-- The four MongoDB collections the pipeline touches. -/
structure DB where
  users : List User
  events : List Event
  participants : List Participant
  feedback : List FeedbackDoc
deriving DecidableEq, Repr

/-! ## Feedback token redemption (api/feedback.py, submit_feedback) -/

/-- Outcome of POST /feedback/:token/submit: each error constructor is one
of the HTTPExceptions the endpoint raises (404 for an unknown token, 410
for a token already submitted, 404 for dangling participant/event
references, 500 for missing owner email settings, 500 when the
certificate step fails after the submission was stored). -/
inductive SubmitResult where
  | notFound
  | alreadySubmitted
  | participantNotFound
  | eventNotFound
  | ownerNotConfigured
  | success
  | sendFailed (msg : String)
deriving DecidableEq, Repr

/-- Environment of one submit_feedback request. -/
structure SubmitEnv where
  /-- decrypt_app_password. -/
  decrypt : String → String
  /-- datetime.utcnow() during this request (the utcnow calls within one
  request are identified, their sub-second differences being irrelevant
  to every claim). -/
  now : Nat
  /-- Combined outcome of the certificate render + send step inside the
  try block (generate_certificate + send_certificate, lines 112-153):
  ok, or the message of the exception it raised. -/
  certSend : Except String Unit

/-- Lines 89-109 of submit_feedback: store the answers and stamp the
submission timestamp on the feedback document matched by token, and
transition the bound participant to feedback_received, stamping
feedback_submitted_at. -/
def storeSubmission (db : DB) (token : String) (answers : List FeedbackAnswer)
    (pid : String) (now : Nat) : DB :=
  { db with
    feedback := updateFirst (fun f => f.token == token)
      (fun f => { f with answers := answers, submitted_at := some now }) db.feedback
    participants := updateFirst (fun p => p.id == pid)
      (fun p => { p with
                  status := "feedback_received"
                  feedback_submitted_at := some now }) db.participants }

/-- submit_feedback from api/feedback.py: look up the token, reject a
missing or already-submitted token, resolve participant, event and owner,
store the submission, then attempt the certificate render + send; on
success mark the participant certificate_sent, on failure mark it failed
with the error message - in both cases the stored submission stays. -/
def submit_feedback (env : SubmitEnv) (db : DB) (token : String)
    (answers : List FeedbackAnswer) : DB × SubmitResult :=
  match db.feedback.find? (fun f => f.token == token) with
  | none => (db, .notFound)
  | some feedback =>
    if feedback.submitted_at.isSome then (db, .alreadySubmitted)
    else
      match db.participants.find? (fun p => p.id == feedback.participant_id) with
      | none => (db, .participantNotFound)
      | some _participant =>
        match db.events.find? (fun e => e.id == feedback.event_id) with
        | none => (db, .eventNotFound)
        | some event =>
          match db.users.find? (fun u => u.id == event.user_id) with
          | none => (db, .ownerNotConfigured)
          | some user =>
            match user.email_settings with
            | none => (db, .ownerNotConfigured)
            | some _es =>
              let db1 := storeSubmission db token answers feedback.participant_id env.now
              match env.certSend with
              | .ok _ =>
                let sentParts := updateFirst
                  (fun p => p.id == feedback.participant_id)
                  (fun p => { p with
                              status := "certificate_sent"
                              certificate_sent_at := some env.now })
                  db1.participants
                ({ db1 with participants := sentParts }, .success)
              | .error e =>
                let failedParts := updateFirst
                  (fun p => p.id == feedback.participant_id)
                  (fun p => { p with
                              status := "failed"
                              error_message := some e })
                  db1.participants
                ({ db1 with participants := failedParts }, .sendFailed e)

/-! ## Helper lemmas on updateFirst -/

theorem find?_updateFirst_self (p : α → Bool) (f : α → α) (l : List α) (x : α)
    (hfind : l.find? p = some x) (hf : p (f x) = true) :
    (updateFirst p f l).find? p = some (f x) := by
  induction l with
  | nil => simp [List.find?] at hfind
  | cons y ys ih =>
    rw [updateFirst]
    by_cases hy : p y = true
    · rw [List.find?_cons_of_pos _ hy] at hfind
      cases hfind
      simp [hy, List.find?_cons_of_pos _ hf]
    · rw [List.find?_cons_of_neg _ (by simpa using hy)] at hfind
      simp [hy, List.find?_cons_of_neg _ (by simpa using hy), ih hfind]

/-- Redemption of a token whose document carries a non-null submission
timestamp returns AlreadySubmitted without touching the database. -/
theorem submit_feedback_already (env : SubmitEnv) (db : DB) (token : String)
    (answers : List FeedbackAnswer) (fb : FeedbackDoc) (ts : Nat)
    (hfb : db.feedback.find? (fun f => f.token == token) = some fb)
    (hts : fb.submitted_at = some ts) :
    submit_feedback env db token answers = (db, SubmitResult.alreadySubmitted) := by
  simp [submit_feedback, hfb, hts]

/-! ## Claim C1: single-use token redemption -/

/-- C1: redemption of a token fails with NotFound when no feedback
document matches the token; fails with AlreadySubmitted - without any
write - when the matching document's submission timestamp is non-null;
otherwise (with the participant, event and configured owner resolvable)
it stores the submitted answers and stamps the submission timestamp on
the token's document, transitions the bound participant to
feedback_received stamping feedback_submitted_at, and redeeming the same
token again afterwards returns AlreadySubmitted leaving the whole
database - the stored answers and timestamps included - unchanged. -/
theorem submit_feedback_single_use
    (env env2 : SubmitEnv) (db : DB) (token : String)
    (answers answers2 : List FeedbackAnswer) :
    (db.feedback.find? (fun f => f.token == token) = none →
      submit_feedback env db token answers = (db, SubmitResult.notFound))
    ∧ (∀ fb ts, db.feedback.find? (fun f => f.token == token) = some fb →
        fb.submitted_at = some ts →
        submit_feedback env db token answers = (db, SubmitResult.alreadySubmitted))
    ∧ (∀ fb participant event user es,
        db.feedback.find? (fun f => f.token == token) = some fb →
        fb.submitted_at = none →
        db.participants.find? (fun p => p.id == fb.participant_id) = some participant →
        db.events.find? (fun e => e.id == fb.event_id) = some event →
        db.users.find? (fun u => u.id == event.user_id) = some user →
        user.email_settings = some es →
        ((storeSubmission db token answers fb.participant_id env.now).feedback.find?
            (fun f => f.token == token)
          = some { fb with answers := answers, submitted_at := some env.now })
        ∧ ((storeSubmission db token answers fb.participant_id env.now).participants.find?
            (fun p => p.id == fb.participant_id)
          = some { participant with status := "feedback_received", feedback_submitted_at := some env.now })
        ∧ ((submit_feedback env db token answers).1.feedback.find?
            (fun f => f.token == token)
          = some { fb with answers := answers, submitted_at := some env.now })
        ∧ submit_feedback env2 (submit_feedback env db token answers).1 token answers2
          = ((submit_feedback env db token answers).1, SubmitResult.alreadySubmitted)) := by
  refine ⟨?_, ?_, ?_⟩
  · intro hnone
    simp [submit_feedback, hnone]
  · intro fb ts hfb hts
    simp [submit_feedback, hfb, hts]
  · intro fb participant event user es hfb hsub hpart hev huser hes
    have hpfb := List.find?_some hfb
    have hppart := List.find?_some hpart
    have hstoreFb :
        (storeSubmission db token answers fb.participant_id env.now).feedback.find?
            (fun f => f.token == token)
          = some { fb with answers := answers, submitted_at := some env.now } := by
      unfold storeSubmission
      exact find?_updateFirst_self _ _ _ _ hfb (by simpa using hpfb)
    have hstorePart :
        (storeSubmission db token answers fb.participant_id env.now).participants.find?
            (fun p => p.id == fb.participant_id)
          = some { participant with status := "feedback_received", feedback_submitted_at := some env.now } := by
      unfold storeSubmission
      exact find?_updateFirst_self _ _ _ _ hpart (by simpa using hppart)
    have hrun : (submit_feedback env db token answers).1.feedback
        = (storeSubmission db token answers fb.participant_id env.now).feedback := by
      simp only [submit_feedback, hfb, hsub, hpart, hev, huser, hes]
      cases env.certSend <;> rfl
    have h3 : (submit_feedback env db token answers).1.feedback.find?
          (fun f => f.token == token)
        = some { fb with answers := answers, submitted_at := some env.now } := by
      rw [hrun]
      exact hstoreFb
    refine ⟨hstoreFb, hstorePart, h3, ?_⟩
    exact submit_feedback_already env2 _ token answers2 _ env.now h3 rfl

/-! ## Claim C2: send failure does not roll back the submission -/

/-- C2: when the certificate render + send step raises after the feedback
was stored, the redemption returns the send failure, the token's document
keeps the stored answers and submission timestamp (nothing is rolled
back), and the bound participant ends with status failed, the error
message recorded, and the feedback timestamp still set. -/
theorem submit_feedback_send_failure_not_rolled_back
    (env : SubmitEnv) (db : DB) (token : String) (answers : List FeedbackAnswer)
    (fb : FeedbackDoc) (participant : Participant) (event : Event) (user : User)
    (es : EmailSettings) (e : String)
    (hfb : db.feedback.find? (fun f => f.token == token) = some fb)
    (hsub : fb.submitted_at = none)
    (hpart : db.participants.find? (fun p => p.id == fb.participant_id) = some participant)
    (hev : db.events.find? (fun ev => ev.id == fb.event_id) = some event)
    (huser : db.users.find? (fun u => u.id == event.user_id) = some user)
    (hes : user.email_settings = some es)
    (hfail : env.certSend = .error e) :
    (submit_feedback env db token answers).2 = SubmitResult.sendFailed e
    ∧ (submit_feedback env db token answers).1.feedback.find?
        (fun f => f.token == token)
      = some { fb with answers := answers, submitted_at := some env.now }
    ∧ (submit_feedback env db token answers).1.participants.find?
        (fun p => p.id == fb.participant_id)
      = some { participant with status := "failed", feedback_submitted_at := some env.now, error_message := some e } := by
  have hpfb := List.find?_some hfb
  have hppart := List.find?_some hpart
  have hstorePart :
      (storeSubmission db token answers fb.participant_id env.now).participants.find?
          (fun p => p.id == fb.participant_id)
        = some { participant with status := "feedback_received", feedback_submitted_at := some env.now } := by
    unfold storeSubmission
    exact find?_updateFirst_self _ _ _ _ hpart (by simpa using hppart)
  have hstoreFb :
      (storeSubmission db token answers fb.participant_id env.now).feedback.find?
          (fun f => f.token == token)
        = some { fb with answers := answers, submitted_at := some env.now } := by
    unfold storeSubmission
    exact find?_updateFirst_self _ _ _ _ hfb (by simpa using hpfb)
  have hred : submit_feedback env db token answers
      = ({ storeSubmission db token answers fb.participant_id env.now with
            participants := updateFirst (fun p => p.id == fb.participant_id)
              (fun p => { p with status := "failed", error_message := some e })
              (storeSubmission db token answers fb.participant_id env.now).participants },
          SubmitResult.sendFailed e) := by
    simp only [submit_feedback, hfb, hsub, hpart, hev, huser, hes, hfail]
    rfl
  refine ⟨?_, ?_, ?_⟩
  · rw [hred]
  · rw [hred]
    exact hstoreFb
  · rw [hred]
    have := find?_updateFirst_self (fun p => p.id == fb.participant_id)
      (fun p => { p with status := "failed", error_message := some e })
      (storeSubmission db token answers fb.participant_id env.now).participants
      _ hstorePart (by simpa using hppart)
    simpa using this

/-! ## Concrete fixtures for witness runs -/

/-- Organizer with configured email settings. -/
def wUser : User :=
  { id := "u1"
    email_settings := some { email := "org@example.com", app_password_encrypted := "enc" } }

/-- Event with a template and feedback enabled, with short custom email
templates. -/
def wEvent : Event :=
  { id := "e1"
    user_id := "u1"
    name := "Lean Conf"
    template_path := some "uploads/s1_template_cert.png"
    template_format := "image"
    text_settings := none
    feedback_enabled := some true
    email_subject := some "Cert for {name}"
    email_body := some "Hi {name} - {event_name}"
    feedback_email_subject := some "FB {name}"
    feedback_email_body := some "Go {feedback_url}"
    status := "sending" }

/-- Participant bound to wEvent, already sent a feedback link. -/
def wParticipant : Participant :=
  { id := "p1"
    event_id := "e1"
    name := "Ada Lovelace"
    email := "ada@example.com"
    status := "feedback_sent"
    feedback_token := some "tok1"
    feedback_submitted_at := none
    certificate_sent_at := none
    error_message := none }

/-- Unsubmitted feedback token bound to wParticipant. -/
def wFeedback : FeedbackDoc :=
  { participant_id := "p1"
    event_id := "e1"
    token := "tok1"
    answers := []
    submitted_at := none }

/-- Database holding the four fixtures. -/
def wDB : DB :=
  { users := [wUser]
    events := [wEvent]
    participants := [wParticipant]
    feedback := [wFeedback] }

/-- One concrete submitted answer. -/
def wAnswers : List FeedbackAnswer := [{ question_id := "q1", answer := "5" }]

/-- Request environment whose certificate step succeeds. -/
def wEnvOk : SubmitEnv := { decrypt := fun s => s, now := 100, certSend := .ok () }

/-- Later request environment (second redemption attempt). -/
def wEnvOk2 : SubmitEnv := { decrypt := fun s => s, now := 200, certSend := .ok () }

/-- Request environment whose certificate step raises. -/
def wEnvFail : SubmitEnv :=
  { decrypt := fun s => s, now := 100, certSend := .error "SMTP authentication failed" }

/-- Witness for C1: on the concrete database, the first redemption stores
the submission and moves the participant to feedback_received, and a
second redemption of the same token returns AlreadySubmitted leaving the
database unchanged. -/
theorem submit_feedback_single_use_witness :
    ((storeSubmission wDB "tok1" wAnswers "p1" 100).participants.find?
        (fun p => p.id == "p1")
      = some { wParticipant with status := "feedback_received", feedback_submitted_at := some 100 })
    ∧ submit_feedback wEnvOk2 (submit_feedback wEnvOk wDB "tok1" wAnswers).1 "tok1" []
      = ((submit_feedback wEnvOk wDB "tok1" wAnswers).1, SubmitResult.alreadySubmitted) := by
  have h := (submit_feedback_single_use wEnvOk wEnvOk2 wDB "tok1" wAnswers []).2.2
    wFeedback wParticipant wEvent wUser
    { email := "org@example.com", app_password_encrypted := "enc" }
    rfl rfl rfl rfl rfl rfl
  exact ⟨h.2.1, h.2.2.2⟩

/-- Witness for C2: on the concrete database with a failing certificate
step, redemption reports the failure, the stored answers and submission
timestamp survive, and the participant is failed with the error
recorded. -/
theorem submit_feedback_send_failure_witness :
    (submit_feedback wEnvFail wDB "tok1" wAnswers).2
      = SubmitResult.sendFailed "SMTP authentication failed"
    ∧ ((submit_feedback wEnvFail wDB "tok1" wAnswers).1.feedback.find?
        (fun f => f.token == "tok1")
      = some { wFeedback with answers := wAnswers, submitted_at := some 100 })
    ∧ ((submit_feedback wEnvFail wDB "tok1" wAnswers).1.participants.find?
        (fun p => p.id == "p1")
      = some { wParticipant with status := "failed", feedback_submitted_at := some 100, error_message := some "SMTP authentication failed" }) := by
  have h := submit_feedback_send_failure_not_rolled_back wEnvFail wDB "tok1" wAnswers
    wFeedback wParticipant wEvent wUser
    { email := "org@example.com", app_password_encrypted := "enc" }
    "SMTP authentication failed"
    rfl rfl rfl rfl rfl rfl rfl
  exact ⟨h.1, h.2.1, h.2.2⟩

/-! ## Batch dispatch engine (api/send.py, send_certificates) -/

/-- One entry of results["details"]. -/
structure DetailEntry where
  name : String
  email : String
  status : String
  error : Option String
deriving DecidableEq, Repr

/-- The results dictionary accumulated by the batch loop. -/
structure SendResults where
  total : Nat
  successful : Nat
  failed : Nat
  details : List DetailEntry
deriving DecidableEq, Repr

/-- Environment of one dispatch run. -/
structure DispatchEnv where
  /-- decrypt_app_password. -/
  decrypt : String → String
  /-- datetime.utcnow() during this run. -/
  now : Nat
  /-- settings.FRONTEND_URL. -/
  frontend_url : String
  /-- secrets.token_urlsafe(32) drawn for the i-th processed participant. -/
  freshToken : Nat → String
  /-- Outcome of the fallible render / send I/O for the i-th processed
  participant: send_email in the feedback branch, or generate_certificate
  followed by send_certificate in the direct branch; ok, or the message of
  the exception it raised.  The database writes preceding that I/O have
  already completed when it raises, exactly as in the source. -/
  outcome : Nat → Except String Unit

/-- State carried through the batch loop: the database, the counters and
details of the results dictionary, and the messages actually handed to
the mail transport. -/
structure RunState where
  db : DB
  total : Nat
  successful : Nat
  failed : Nat
  details : List DetailEntry
  sent : List EmailMsg
deriving DecidableEq, Repr

/-- The default feedback-request email body from send.py. -/
def defaultFeedbackBody : String :=
  "Dear {name},\n\nThank you for your participation in {event_name}!\n\nTo receive your certificate, please complete our quick feedback form:\n\n{feedback_url}\n\nYour certificate will be sent to this email address immediately after submitting the feedback.\n\nBest regards,\nThe Event Team"

/-- Body of the async-for loop of send_certificates (send.py lines
83-224) for the i-th selected participant: count it, then either issue a
feedback token (upsert by participant), mark the participant
feedback_sent and send the feedback link, or render and send the
certificate directly and mark the participant certificate_sent; any
exception from the render / send I/O is caught here, the participant is
marked failed with the error text, and the loop moves on. -/
def processParticipant (env : DispatchEnv) (event : Event)
    (frontend_url sender_email app_password : String) (i : Nat)
    (st : RunState) (participant : Participant) : RunState :=
  let participant_id := participant.id
  let name := participant.name
  let email := participant.email
  let st := { st with total := st.total + 1 }
  if event.feedback_enabled.getD true then
    let token := env.freshToken i
    let newFb : FeedbackDoc :=
      { participant_id := participant_id, event_id := event.id, token := token,
        answers := [], submitted_at := none }
    let fb1 := upsertDoc (fun f => f.participant_id == participant_id)
      (fun _ => newFb) newFb st.db.feedback
    let db1 := { st.db with feedback := fb1 }
    let parts2 := updateFirst (fun p => p.id == participant_id)
      (fun p => { p with feedback_token := some token, status := "feedback_sent", error_message := none })
      db1.participants
    let db2 := { db1 with participants := parts2 }
    let feedback_url := frontend_url ++ "/feedback/" ++ token
    let feedback_subject := event.feedback_email_subject.getD
      ("Complete Feedback to Receive Your Certificate - " ++ event.name)
    let feedback_body_template := event.feedback_email_body.getD defaultFeedbackBody
    let feedback_email_body :=
      pyReplace (pyReplace (pyReplace feedback_body_template "{name}" name)
        "{event_name}" event.name) "{feedback_url}" feedback_url
    let feedback_email_subject :=
      pyReplace (pyReplace feedback_subject "{name}" name) "{event_name}" event.name
    match env.outcome i with
    | .ok _ =>
      { st with
        db := db2
        successful := st.successful + 1
        details := st.details ++ [{ name := name, email := email, status := "feedback_sent", error := none }]
        sent := st.sent ++ [send_email email sender_email app_password feedback_email_subject feedback_email_body] }
    | .error e =>
      let parts3 := updateFirst (fun p => p.id == participant_id)
        (fun p => { p with status := "failed", error_message := some e })
        db2.participants
      let db3 := { db2 with participants := parts3 }
      { st with
        db := db3
        failed := st.failed + 1
        details := st.details ++ [{ name := name, email := email, status := "failed", error := some e }] }
  else
    let safe_name := pyReplace (pyReplace name "/" "_") "\\" "_"
    let pdf_path := "output/" ++ event.id ++ "/pdf/" ++ safe_name ++ ".pdf"
    match env.outcome i with
    | .ok _ =>
      let msg := send_certificate name email pdf_path sender_email app_password
        (event.email_subject.getD "Your Participation Certificate")
        (event.email_body.getD "Congratulations!")
      let partsOk := updateFirst (fun p => p.id == participant_id)
        (fun p => { p with status := "certificate_sent", certificate_sent_at := some env.now, error_message := none })
        st.db.participants
      let db2 := { st.db with participants := partsOk }
      { st with
        db := db2
        successful := st.successful + 1
        details := st.details ++ [{ name := name, email := email, status := "certificate_sent", error := none }]
        sent := st.sent ++ [msg] }
    | .error e =>
      let partsErr := updateFirst (fun p => p.id == participant_id)
        (fun p => { p with status := "failed", error_message := some e })
        st.db.participants
      let db2 := { st.db with participants := partsErr }
      { st with
        db := db2
        failed := st.failed + 1
        details := st.details ++ [{ name := name, email := email, status := "failed", error := some e }] }

/-- The batch loop over the selected participants (in cursor order),
threading the loop index for the per-participant environment. -/
def processAll (env : DispatchEnv) (event : Event)
    (frontend_url sender_email app_password : String) :
    Nat → RunState → List Participant → RunState
  | _, st, [] => st
  | i, st, p :: rest =>
    processAll env event frontend_url sender_email app_password (i + 1)
      (processParticipant env event frontend_url sender_email app_password i st p) rest

/-- The MongoDB query of send.py lines 62-67: participants of the event
whose status is in {pending, failed, feedback_sent, certificate_sent}
when send_all is set, or exactly pending otherwise. -/
def sendQuery (event_id : String) (send_all : Bool) (p : Participant) : Bool :=
  p.event_id == event_id &&
    (if send_all then
      ["pending", "failed", "feedback_sent", "certificate_sent"].contains p.status
    else p.status == "pending")

/-- The loop phase of send_certificates, once user, event and credentials
have been resolved: select the participants (the cursor is a snapshot of
the matching documents at loop start) and fold the loop body over them. -/
def dispatchLoop (env : DispatchEnv) (db : DB) (event : Event)
    (event_id : String) (es : EmailSettings) (send_all : Bool) : RunState :=
  let sender_email := es.email
  let app_password := env.decrypt es.app_password_encrypted
  let selected := db.participants.filter (sendQuery event_id send_all)
  let frontend_url := if env.frontend_url == "" then "http://localhost:5173" else env.frontend_url
  processAll env event frontend_url sender_email app_password 0
    { db := db, total := 0, successful := 0, failed := 0, details := [], sent := [] }
    selected

/-- HTTPExceptions raised by send_certificates before the loop starts. -/
inductive DispatchError where
  | emailNotConfigured
  | eventNotFound
  | noTemplate
deriving DecidableEq, Repr

/-- send_certificates from api/send.py: resolve the caller's email
settings, the event and its template, run the batch loop, then set the
event status to completed when no participant failed, else sending.
Returns the final database, the results dictionary, and the messages
handed to the mail transport. -/
def send_certificates (env : DispatchEnv) (db : DB)
    (event_id user_id : String) (send_all : Bool) :
    Except DispatchError (DB × SendResults × List EmailMsg) :=
  match db.users.find? (fun u => u.id == user_id) with
  | none => .error .emailNotConfigured
  | some user =>
    match user.email_settings with
    | none => .error .emailNotConfigured
    | some es =>
      match db.events.find? (fun e => e.id == event_id && e.user_id == user_id) with
      | none => .error .eventNotFound
      | some event =>
        match event.template_path with
        | none => .error .noTemplate
        | some tp =>
          if tp == "" then .error .noTemplate
          else
            let stF := dispatchLoop env db event event_id es send_all
            let status := if stF.failed == 0 then "completed" else "sending"
            let eventsF := updateFirst (fun e => e.id == event_id)
              (fun e => { e with status := status }) stF.db.events
            let dbF := { stF.db with events := eventsF }
            .ok (dbF,
              { total := stF.total, successful := stF.successful,
                failed := stF.failed, details := stF.details },
              stF.sent)

/-! ## Helper lemmas for the batch loop -/

theorem map_updateFirst (p : α → Bool) (f : α → α) (g : α → β) (l : List α)
    (h : ∀ x, p x = true → g (f x) = g x) :
    (updateFirst p f l).map g = l.map g := by
  induction l with
  | nil => rfl
  | cons y ys ih =>
    by_cases hy : p y = true
    · simp [updateFirst, hy, h y hy]
    · simp [updateFirst, hy, ih]

theorem find?_updateFirst_untouched (p q : α → Bool) (f : α → α) (l : List α)
    (hpq : ∀ x, p x = true → q x = false ∧ q (f x) = false) :
    (updateFirst p f l).find? q = l.find? q := by
  induction l with
  | nil => rfl
  | cons y ys ih =>
    by_cases hy : p y = true
    · obtain ⟨h1, h2⟩ := hpq y hy
      rw [updateFirst, if_pos hy]
      rw [List.find?_cons_of_neg _ (by simp [h2]),
          List.find?_cons_of_neg _ (by simp [h1])]
    · rw [updateFirst, if_neg hy]
      by_cases hqy : q y = true
      · rw [List.find?_cons_of_pos _ hqy, List.find?_cons_of_pos _ hqy]
      · rw [List.find?_cons_of_neg _ hqy, List.find?_cons_of_neg _ hqy, ih]

theorem find?_exists_of_mem_ids (pid : String) (l : List Participant)
    (h : pid ∈ l.map (fun x => x.id)) :
    ∃ r, l.find? (fun x => x.id == pid) = some r := by
  induction l with
  | nil => simp at h
  | cons y ys ih =>
    simp only [List.map_cons, List.mem_cons] at h
    by_cases hy : (y.id == pid) = true
    · exact ⟨y, List.find?_cons_of_pos (p := fun (x : Participant) => x.id == pid) _ hy⟩
    · rcases h with h1 | h2
      · exact absurd (by simp [h1]) hy
      · obtain ⟨r, hr⟩ := ih h2
        refine ⟨r, ?_⟩
        rw [List.find?_cons_of_neg (p := fun (x : Participant) => x.id == pid) _ hy]
        exact hr

theorem length_filter_updateFirst (p q : α → Bool) (f : α → α) (l : List α)
    (h : ∀ x, p x = true → q (f x) = q x) :
    ((updateFirst p f l).filter q).length = (l.filter q).length := by
  induction l with
  | nil => rfl
  | cons y ys ih =>
    by_cases hy : p y = true
    · simp only [updateFirst, hy, if_true, List.filter_cons, h y hy]
      cases hq : q y <;> simp [hq]
    · simp only [updateFirst, hy, if_false, List.filter_cons]
      cases hq : q y <;> simp [hq, ih]

/-! ## Feedback token uniqueness invariant (claim C4 machinery) -/

/-- Number of feedback documents stored for a given participant. -/
def feedbackCountFor (l : List FeedbackDoc) (pid : String) : Nat :=
  (l.filter (fun f => f.participant_id == pid)).length

theorem upsert_feedback_count_le_one (curId : String) (newFb : FeedbackDoc)
    (hnew : newFb.participant_id = curId) (l : List FeedbackDoc)
    (hinv : ∀ a, feedbackCountFor l a ≤ 1) :
    ∀ a, feedbackCountFor
      (upsertDoc (fun f => f.participant_id == curId) (fun _ => newFb) newFb l) a ≤ 1 := by
  intro a
  unfold upsertDoc
  by_cases hany : l.any (fun f => f.participant_id == curId) = true
  · rw [if_pos hany]
    unfold feedbackCountFor
    rw [length_filter_updateFirst]
    · exact hinv a
    · intro x hx
      have hx2 : x.participant_id = curId := by simpa using hx
      simp [hnew, hx2]
  · rw [if_neg hany]
    have hany2 : l.any (fun f => f.participant_id == curId) = false := by
      simpa using hany
    unfold feedbackCountFor
    rw [List.filter_append, List.length_append]
    by_cases ha : a = curId
    · subst ha
      have hzero : (l.filter (fun f => f.participant_id == a)).length = 0 := by
        rw [List.length_eq_zero]
        rw [List.filter_eq_nil_iff]
        intro x hx
        exact (List.any_eq_false.mp hany2) x hx
      rw [hzero]
      simp [hnew]
    · have hone : (([newFb] : List FeedbackDoc).filter
          (fun f => f.participant_id == a)).length = 0 := by
        simp [hnew, Ne.symm ha]
      rw [hone]
      simpa using hinv a

theorem pp_feedback_count (env : DispatchEnv) (event : Event)
    (fu se ap : String) (i : Nat) (st : RunState) (participant : Participant)
    (hinv : ∀ a, feedbackCountFor st.db.feedback a ≤ 1) :
    ∀ a, feedbackCountFor
      (processParticipant env event fu se ap i st participant).db.feedback a ≤ 1 := by
  intro a
  unfold processParticipant
  by_cases hfb : event.feedback_enabled.getD true
  · rw [if_pos hfb]
    cases env.outcome i with
    | ok u => exact upsert_feedback_count_le_one participant.id _ rfl _ hinv a
    | error e => exact upsert_feedback_count_le_one participant.id _ rfl _ hinv a
  · rw [if_neg hfb]
    cases env.outcome i with
    | ok u => exact hinv a
    | error e => exact hinv a

theorem processAll_feedback_count (env : DispatchEnv) (event : Event)
    (fu se ap : String) :
    ∀ (l : List Participant) (i : Nat) (st : RunState),
    (∀ a, feedbackCountFor st.db.feedback a ≤ 1) →
    ∀ a, feedbackCountFor (processAll env event fu se ap i st l).db.feedback a ≤ 1 := by
  intro l
  induction l with
  | nil =>
    intro i st h a
    exact h a
  | cons hd tl ih =>
    intro i st h a
    exact ih _ _ (pp_feedback_count _ _ _ _ _ _ _ _ h) a

/-- Inversion of a successful dispatch run: the pre-loop lookups
succeeded and the returned database, results and messages are those of
the loop (the post-loop event status write touches neither participants
nor feedback). -/
theorem send_certificates_ok_elim (env : DispatchEnv) (db : DB)
    (event_id user_id : String) (send_all : Bool)
    (out : DB × SendResults × List EmailMsg)
    (h : send_certificates env db event_id user_id send_all = .ok out) :
    ∃ user es event tp,
      db.users.find? (fun u => u.id == user_id) = some user
      ∧ user.email_settings = some es
      ∧ db.events.find? (fun e => e.id == event_id && e.user_id == user_id) = some event
      ∧ event.template_path = some tp
      ∧ (tp == "") = false
      ∧ out.1.participants = (dispatchLoop env db event event_id es send_all).db.participants
      ∧ out.1.feedback = (dispatchLoop env db event event_id es send_all).db.feedback
      ∧ out.2.1.total = (dispatchLoop env db event event_id es send_all).total
      ∧ out.2.1.successful = (dispatchLoop env db event event_id es send_all).successful
      ∧ out.2.1.failed = (dispatchLoop env db event event_id es send_all).failed
      ∧ out.2.1.details = (dispatchLoop env db event event_id es send_all).details
      ∧ out.2.2 = (dispatchLoop env db event event_id es send_all).sent := by
  unfold send_certificates at h
  split at h
  next huser => simp at h
  next user huser =>
    split at h
    next hes => simp at h
    next es hes =>
      split at h
      next hev => simp at h
      next event hev =>
        split at h
        next htp => simp at h
        next tp htp =>
          split at h
          next htpe => simp at h
          next htpe =>
            simp only [Except.ok.injEq] at h
            cases h
            exact ⟨user, es, event, tp, huser, hes, hev, htp, by simpa using htpe,
              rfl, rfl, rfl, rfl, rfl, rfl, rfl⟩

/-! ## Per-step lemmas on the batch loop body -/

theorem pp_counters (env : DispatchEnv) (event : Event) (fu se ap : String)
    (i : Nat) (st : RunState) (p : Participant) :
    (processParticipant env event fu se ap i st p).total = st.total + 1
    ∧ (processParticipant env event fu se ap i st p).successful
        + (processParticipant env event fu se ap i st p).failed
      = st.successful + st.failed + 1
    ∧ (processParticipant env event fu se ap i st p).details.length
      = st.details.length + 1 := by
  by_cases hfb : event.feedback_enabled.getD true = true <;>
    cases houtcome : env.outcome i <;>
      simp [processParticipant, hfb, houtcome] <;> omega

theorem pp_ids (env : DispatchEnv) (event : Event) (fu se ap : String)
    (i : Nat) (st : RunState) (p : Participant) :
    (processParticipant env event fu se ap i st p).db.participants.map (fun x => x.id)
      = st.db.participants.map (fun x => x.id) := by
  by_cases hfb : event.feedback_enabled.getD true = true <;>
    cases houtcome : env.outcome i <;>
      simp [processParticipant, hfb, houtcome] <;>
      first
        | (refine (map_updateFirst _ _ _ _ ?_).trans (map_updateFirst _ _ _ _ ?_) <;>
            exact fun x _ => rfl)
        | (refine map_updateFirst _ _ _ _ ?_
           exact fun x _ => rfl)

theorem pp_find_other (env : DispatchEnv) (event : Event) (fu se ap : String)
    (i : Nat) (st : RunState) (participant : Participant) (pid : String)
    (hne : (participant.id == pid) = false) :
    (processParticipant env event fu se ap i st participant).db.participants.find?
        (fun x => x.id == pid)
      = st.db.participants.find? (fun x => x.id == pid) := by
  have hpq : ∀ (x : Participant), (x.id == participant.id) = true →
      ((x.id == pid) = false) := by
    intro x hx
    have hx2 : x.id = participant.id := by simpa using hx
    rw [hx2]
    exact hne
  by_cases hfb : event.feedback_enabled.getD true = true <;>
    cases houtcome : env.outcome i <;>
      simp [processParticipant, hfb, houtcome] <;>
      first
        | (refine (find?_updateFirst_untouched _ _ _ _ ?_).trans
              (find?_updateFirst_untouched _ _ _ _ ?_) <;>
            exact fun x hx => ⟨hpq x hx, hpq x hx⟩)
        | (refine find?_updateFirst_untouched _ _ _ _ ?_
           exact fun x hx => ⟨hpq x hx, hpq x hx⟩)

theorem pp_own_failed (env : DispatchEnv) (event : Event) (fu se ap : String)
    (i : Nat) (st : RunState) (participant : Participant) (e : String)
    (hout : env.outcome i = .error e)
    (hex : ∃ r, st.db.participants.find? (fun x => x.id == participant.id) = some r) :
    ∃ q, (processParticipant env event fu se ap i st participant).db.participants.find?
          (fun x => x.id == participant.id) = some q
      ∧ q.status = "failed" ∧ q.error_message = some e := by
  obtain ⟨r, hr⟩ := hex
  have hpr := List.find?_some hr
  by_cases hfb : event.feedback_enabled.getD true = true
  · have h1 := find?_updateFirst_self (fun (x : Participant) => x.id == participant.id)
      (fun p => { p with feedback_token := some (env.freshToken i), status := "feedback_sent", error_message := none })
      st.db.participants r hr (by simpa using hpr)
    have h2 := find?_updateFirst_self (fun (x : Participant) => x.id == participant.id)
      (fun p => { p with status := "failed", error_message := some e })
      _ _ h1 (by simpa using hpr)
    refine ⟨{ r with feedback_token := some (env.freshToken i), status := "failed", error_message := some e }, ?_, rfl, rfl⟩
    simp [processParticipant, hfb, hout]
    exact h2
  · have h1 := find?_updateFirst_self (fun (x : Participant) => x.id == participant.id)
      (fun p => { p with status := "failed", error_message := some e })
      st.db.participants r hr (by simpa using hpr)
    refine ⟨{ r with status := "failed", error_message := some e }, ?_, rfl, rfl⟩
    simp [processParticipant, hfb, hout]
    exact h1

theorem pp_details_error (env : DispatchEnv) (event : Event) (fu se ap : String)
    (i : Nat) (st : RunState) (p : Participant) (e : String)
    (hout : env.outcome i = .error e) :
    (processParticipant env event fu se ap i st p).details
      = st.details ++ [{ name := p.name, email := p.email, status := "failed", error := some e }] := by
  by_cases hfb : event.feedback_enabled.getD true = true <;>
    simp [processParticipant, hfb, hout]

theorem pp_details_extend (env : DispatchEnv) (event : Event) (fu se ap : String)
    (i : Nat) (st : RunState) (p : Participant) :
    ∃ d, (processParticipant env event fu se ap i st p).details = st.details ++ [d] := by
  by_cases hfb : event.feedback_enabled.getD true = true <;>
    cases houtcome : env.outcome i <;>
      simp [processParticipant, hfb, houtcome]

/-! ## Loop-level lemmas -/

theorem processAll_counters (env : DispatchEnv) (event : Event) (fu se ap : String) :
    ∀ (l : List Participant) (i : Nat) (st : RunState),
    (processAll env event fu se ap i st l).total = st.total + l.length
    ∧ (processAll env event fu se ap i st l).successful
        + (processAll env event fu se ap i st l).failed
      = st.successful + st.failed + l.length
    ∧ (processAll env event fu se ap i st l).details.length
      = st.details.length + l.length := by
  intro l
  induction l with
  | nil =>
    intro i st
    simp [processAll]
  | cons hd tl ih =>
    intro i st
    have hpp := pp_counters env event fu se ap i st hd
    have hih := ih (i + 1) (processParticipant env event fu se ap i st hd)
    simp only [processAll, List.length_cons]
    refine ⟨?_, ?_, ?_⟩ <;> omega

theorem processAll_ids (env : DispatchEnv) (event : Event) (fu se ap : String) :
    ∀ (l : List Participant) (i : Nat) (st : RunState),
    (processAll env event fu se ap i st l).db.participants.map (fun x => x.id)
      = st.db.participants.map (fun x => x.id) := by
  intro l
  induction l with
  | nil =>
    intro i st
    rfl
  | cons hd tl ih =>
    intro i st
    rw [processAll, ih, pp_ids]

theorem processAll_find_other (env : DispatchEnv) (event : Event) (fu se ap : String)
    (pid : String) :
    ∀ (l : List Participant) (i : Nat) (st : RunState),
    (∀ q ∈ l, (q.id == pid) = false) →
    (processAll env event fu se ap i st l).db.participants.find? (fun x => x.id == pid)
      = st.db.participants.find? (fun x => x.id == pid) := by
  intro l
  induction l with
  | nil =>
    intro i st _
    rfl
  | cons hd tl ih =>
    intro i st hne
    rw [processAll, ih _ _ (fun q hq => hne q (List.mem_cons_of_mem _ hq)),
      pp_find_other]
    exact hne hd (List.mem_cons_self _ _)

theorem processAll_details_extend (env : DispatchEnv) (event : Event) (fu se ap : String) :
    ∀ (l : List Participant) (i : Nat) (st : RunState),
    ∃ ds, (processAll env event fu se ap i st l).details = st.details ++ ds := by
  intro l
  induction l with
  | nil =>
    intro i st
    exact ⟨[], by simp [processAll]⟩
  | cons hd tl ih =>
    intro i st
    obtain ⟨d, hd1⟩ := pp_details_extend env event fu se ap i st hd
    obtain ⟨ds, hds⟩ := ih (i + 1) (processParticipant env event fu se ap i st hd)
    exact ⟨[d] ++ ds, by rw [processAll, hds, hd1, List.append_assoc]⟩

theorem processAll_failed (env : DispatchEnv) (event : Event) (fu se ap : String) :
    ∀ (l : List Participant) (i : Nat) (st : RunState),
    (l.map (fun x => x.id)).Nodup →
    (∀ q ∈ l, q.id ∈ st.db.participants.map (fun x => x.id)) →
    ∀ j p e, l.get? j = some p → env.outcome (i + j) = .error e →
    ∃ q, (processAll env event fu se ap i st l).db.participants.find?
          (fun x => x.id == p.id) = some q
      ∧ q.status = "failed" ∧ q.error_message = some e := by
  intro l
  induction l with
  | nil =>
    intro i st _ _ j p e hget _
    simp at hget
  | cons hd tl ih =>
    intro i st hnodup hmem j p e hget hout
    cases j with
    | zero =>
      simp only [List.get?] at hget
      cases hget
      rw [Nat.add_zero] at hout
      have hnd : (∀ x ∈ tl, ¬x.id = hd.id) ∧ (tl.map (fun x => x.id)).Nodup := by
        simpa using hnodup
      have hex := find?_exists_of_mem_ids hd.id st.db.participants
        (hmem hd (List.mem_cons_self _ _))
      obtain ⟨q, hq, hqs, hqe⟩ := pp_own_failed env event fu se ap i st hd e hout hex
      refine ⟨q, ?_, hqs, hqe⟩
      rw [processAll]
      rw [processAll_find_other]
      · exact hq
      · intro r hr
        simpa using hnd.1 r hr
    | succ j' =>
      simp only [List.get?] at hget
      have hnd : (∀ x ∈ tl, ¬x.id = hd.id) ∧ (tl.map (fun x => x.id)).Nodup := by
        simpa using hnodup
      have hout2 : env.outcome ((i + 1) + j') = .error e := by
        have harith : i + (j' + 1) = (i + 1) + j' := by omega
        rw [← harith]
        exact hout
      rw [processAll]
      refine ih (i + 1) (processParticipant env event fu se ap i st hd)
        hnd.2 ?_ j' p e hget hout2
      intro q hq
      rw [pp_ids]
      exact hmem q (List.mem_cons_of_mem _ hq)

theorem processAll_detail_at (env : DispatchEnv) (event : Event) (fu se ap : String) :
    ∀ (l : List Participant) (i : Nat) (st : RunState),
    ∀ j p e, l.get? j = some p → env.outcome (i + j) = .error e →
    (processAll env event fu se ap i st l).details.get? (st.details.length + j)
      = some { name := p.name, email := p.email, status := "failed", error := some e } := by
  intro l
  induction l with
  | nil =>
    intro i st j p e hget _
    simp at hget
  | cons hd tl ih =>
    intro i st j p e hget hout
    cases j with
    | zero =>
      simp only [List.get?] at hget
      cases hget
      rw [Nat.add_zero] at hout
      rw [processAll]
      obtain ⟨ds, hds⟩ := processAll_details_extend env event fu se ap tl (i + 1)
        (processParticipant env event fu se ap i st hd)
      rw [hds, pp_details_error env event fu se ap i st hd e hout, List.append_assoc,
        Nat.add_zero]
      rw [List.get?_append_right (Nat.le_refl _)]
      simp
    | succ j' =>
      simp only [List.get?] at hget
      have hout2 : env.outcome ((i + 1) + j') = .error e := by
        have harith : i + (j' + 1) = (i + 1) + j' := by omega
        rw [← harith]
        exact hout
      rw [processAll]
      have hlen : (processParticipant env event fu se ap i st hd).details.length
          = st.details.length + 1 := (pp_counters env event fu se ap i st hd).2.2
      have := ih (i + 1) (processParticipant env event fu se ap i st hd) j' p e hget hout2
      rw [hlen] at this
      have harith2 : st.details.length + (j' + 1) = st.details.length + 1 + j' := by omega
      rw [harith2]
      exact this

/-! ## Claim C3: per-participant failure isolation -/

/-- C3: for every successful dispatch run (any selection), the reported
total equals the number of selected participants, total = successful +
failed, there is one detail entry per selected participant, and for every
selected participant whose render / send I/O raised, the exception was
caught at the loop boundary: that participant's stored record ends with
status failed and the exception's message, its detail entry records the
failure, and - since the counters and details still cover every selected
participant - processing continued with the remaining participants. -/
theorem send_certificates_failure_isolation
    (env : DispatchEnv) (db : DB) (event_id user_id : String) (send_all : Bool)
    (out : DB × SendResults × List EmailMsg)
    (hrun : send_certificates env db event_id user_id send_all = .ok out)
    (hnodup : (db.participants.map (fun x => x.id)).Nodup) :
    out.2.1.total = (db.participants.filter (sendQuery event_id send_all)).length
    ∧ out.2.1.total = out.2.1.successful + out.2.1.failed
    ∧ out.2.1.details.length = out.2.1.total
    ∧ (∀ j p e,
        (db.participants.filter (sendQuery event_id send_all)).get? j = some p →
        env.outcome j = .error e →
        (∃ q, out.1.participants.find? (fun x => x.id == p.id) = some q
          ∧ q.status = "failed" ∧ q.error_message = some e)
        ∧ out.2.1.details.get? j
          = some { name := p.name, email := p.email, status := "failed", error := some e }) := by
  obtain ⟨user, es, event, tp, hu, he, hv, ht, htn, hparts, hfb, htot, hsucc, hfail, hdet, hsent⟩ :=
    send_certificates_ok_elim env db event_id user_id send_all out hrun
  have hdl : dispatchLoop env db event event_id es send_all
      = processAll env event
          (if env.frontend_url == "" then "http://localhost:5173" else env.frontend_url)
          es.email (env.decrypt es.app_password_encrypted) 0
          { db := db, total := 0, successful := 0, failed := 0, details := [], sent := [] }
          (db.participants.filter (sendQuery event_id send_all)) := rfl
  obtain ⟨hct, hcs, hcd⟩ := processAll_counters env event
      (if env.frontend_url == "" then "http://localhost:5173" else env.frontend_url)
      es.email (env.decrypt es.app_password_encrypted)
      (db.participants.filter (sendQuery event_id send_all)) 0
      { db := db, total := 0, successful := 0, failed := 0, details := [], sent := [] }
  rw [← hdl] at hct hcs hcd
  simp only [List.length_nil, Nat.zero_add] at hct hcs hcd
  have hsel_nodup :
      ((db.participants.filter (sendQuery event_id send_all)).map (fun x => x.id)).Nodup :=
    hnodup.sublist ((List.filter_sublist _).map (fun (x : Participant) => x.id))
  refine ⟨?_, ?_, ?_, ?_⟩
  · rw [htot]
    exact hct
  · rw [htot, hsucc, hfail]
    omega
  · rw [hdet, htot]
    omega
  · intro j p e hget hout
    constructor
    · have hself := processAll_failed env event
        (if env.frontend_url == "" then "http://localhost:5173" else env.frontend_url)
        es.email (env.decrypt es.app_password_encrypted)
        (db.participants.filter (sendQuery event_id send_all)) 0
        { db := db, total := 0, successful := 0, failed := 0, details := [], sent := [] }
        hsel_nodup
        (fun q hq => List.mem_map_of_mem _ (List.mem_of_mem_filter hq))
        j p e hget (by simpa using hout)
      rw [hparts, hdl]
      exact hself
    · have hdat := processAll_detail_at env event
        (if env.frontend_url == "" then "http://localhost:5173" else env.frontend_url)
        es.email (env.decrypt es.app_password_encrypted)
        (db.participants.filter (sendQuery event_id send_all)) 0
        { db := db, total := 0, successful := 0, failed := 0, details := [], sent := [] }
        j p e hget (by simpa using hout)
      rw [hdet, hdl]
      simpa using hdat

/-! ## Claim C4: token issuance is an upsert keyed by participant -/

/-- C4: feedback-token issuance upserts by participant (the stored record
replaces any prior record for that participant), so a database holding at
most one feedback document per participant still holds at most one per
participant after a resendAll dispatch run, and after running dispatch
twice in a row with the resendAll selection no participant ever has two
feedback token documents - only the latest stored token remains. -/
theorem send_certificates_token_upsert_unique
    (env env2 : DispatchEnv) (db : DB) (event_id user_id : String)
    (out1 out2 : DB × SendResults × List EmailMsg)
    (h1 : send_certificates env db event_id user_id true = .ok out1)
    (h2 : send_certificates env2 out1.1 event_id user_id true = .ok out2)
    (hinv : ∀ pid, feedbackCountFor db.feedback pid ≤ 1) :
    (∀ pid, feedbackCountFor out1.1.feedback pid ≤ 1)
    ∧ (∀ pid, feedbackCountFor out2.1.feedback pid ≤ 1) := by
  obtain ⟨u1, es1, ev1, tp1, _, _, _, _, _, _, hfb1, _, _, _, _, _⟩ :=
    send_certificates_ok_elim env db event_id user_id true out1 h1
  have inv1 : ∀ pid, feedbackCountFor out1.1.feedback pid ≤ 1 := by
    intro pid
    rw [hfb1]
    exact processAll_feedback_count env ev1
      (if env.frontend_url == "" then "http://localhost:5173" else env.frontend_url)
      es1.email (env.decrypt es1.app_password_encrypted) _ 0
      { db := db, total := 0, successful := 0, failed := 0, details := [], sent := [] }
      (fun a => hinv a) pid
  obtain ⟨u2, es2, ev2, tp2, _, _, _, _, _, _, hfb2, _, _, _, _, _⟩ :=
    send_certificates_ok_elim env2 out1.1 event_id user_id true out2 h2
  have inv2 : ∀ pid, feedbackCountFor out2.1.feedback pid ≤ 1 := by
    intro pid
    rw [hfb2]
    exact processAll_feedback_count env2 ev2
      (if env2.frontend_url == "" then "http://localhost:5173" else env2.frontend_url)
      es2.email (env2.decrypt es2.app_password_encrypted) _ 0
      { db := out1.1, total := 0, successful := 0, failed := 0, details := [], sent := [] }
      (fun a => inv1 a) pid
  exact ⟨inv1, inv2⟩

/-! ## Claim C10: direct path never passes the event name -/

/-- C10: on the batch engine's direct (feedback-disabled) path, the
engine calls send_certificate without an event-name argument, so the
sender's default event name "" applies and every occurrence of the
literal placeholder brace-event_name-brace in the event's subject and
body templates (left-to-right, non-overlapping, per Python str.replace)
is replaced by the empty string in the message actually sent. -/
theorem direct_path_event_name_empty
    (env : DispatchEnv) (event : Event) (fu se ap : String) (i : Nat)
    (st : RunState) (p : Participant)
    (hfb : event.feedback_enabled.getD true = false)
    (hok : env.outcome i = .ok ()) :
    ∃ m, (processParticipant env event fu se ap i st p).sent = st.sent ++ [m]
      ∧ m.subject = pyReplace (pyReplace (event.email_subject.getD "Your Participation Certificate") "{name}" p.name) "{event_name}" ""
      ∧ m.body = pyReplace (pyReplace (event.email_body.getD "Congratulations!") "{name}" p.name) "{event_name}" "" := by
  refine ⟨send_certificate p.name p.email
      ("output/" ++ event.id ++ "/pdf/" ++ pyReplace (pyReplace p.name "/" "_") "\\" "_" ++ ".pdf")
      se ap (event.email_subject.getD "Your Participation Certificate")
      (event.email_body.getD "Congratulations!") "", ?_, rfl, rfl⟩
  simp [processParticipant, hfb, hok]

/-! ## Witnesses for the dispatch-engine claims -/

/-- Dispatch environment for a fully successful run. -/
def wDispatchEnv : DispatchEnv :=
  { decrypt := fun s => s, now := 300, frontend_url := "http://localhost:5173",
    freshToken := fun _ => "t1", outcome := fun _ => .ok () }

/-- Dispatch environment for a second successful run. -/
def wDispatchEnv2 : DispatchEnv :=
  { decrypt := fun s => s, now := 400, frontend_url := "http://localhost:5173",
    freshToken := fun _ => "t2", outcome := fun _ => .ok () }

/-- Dispatch environment whose send I/O raises for every participant. -/
def wEnvSendFails : DispatchEnv :=
  { decrypt := fun s => s, now := 300, frontend_url := "http://localhost:5173",
    freshToken := fun _ => "t1", outcome := fun _ => .error "Invalid email address" }

/-- Fallback value for extracting a run's output. -/
def wDispatchDefault : DB × SendResults × List EmailMsg :=
  (wDB, { total := 0, successful := 0, failed := 0, details := [] }, [])

/-- Output of the failing concrete run. -/
def wOutF : DB × SendResults × List EmailMsg :=
  (send_certificates wEnvSendFails wDB "e1" "u1" true).toOption.getD wDispatchDefault

/-- Output of the first successful concrete run. -/
def wOut1 : DB × SendResults × List EmailMsg :=
  (send_certificates wDispatchEnv wDB "e1" "u1" true).toOption.getD wDispatchDefault

/-- Output of the second successful concrete run, resuming from the
first run's database. -/
def wOut2 : DB × SendResults × List EmailMsg :=
  (send_certificates wDispatchEnv2 wOut1.1 "e1" "u1" true).toOption.getD wDispatchDefault

/-- Witness for C3: on the concrete database, a run whose send I/O
raises reports total 1 = successful + failed, marks the participant
failed with the error text, and records the failure in its detail
entry. -/
theorem send_certificates_failure_isolation_witness :
    wOutF.2.1.total = (wDB.participants.filter (sendQuery "e1" true)).length
    ∧ wOutF.2.1.total = wOutF.2.1.successful + wOutF.2.1.failed
    ∧ (∃ q, wOutF.1.participants.find? (fun x => x.id == wParticipant.id) = some q
        ∧ q.status = "failed" ∧ q.error_message = some "Invalid email address")
    ∧ wOutF.2.1.details.get? 0
      = some { name := wParticipant.name, email := wParticipant.email,
               status := "failed", error := some "Invalid email address" } := by
  have h := send_certificates_failure_isolation wEnvSendFails wDB "e1" "u1" true wOutF
    rfl (by decide)
  have h4 := h.2.2.2 0 wParticipant "Invalid email address" rfl rfl
  exact ⟨h.1, h.2.1, h4.1, h4.2⟩

/-- Witness for C4: the concrete database holds one feedback document,
and after two successive resendAll runs no participant ever holds more
than one. -/
theorem send_certificates_token_upsert_unique_witness :
    feedbackCountFor wOut1.1.feedback "p1" ≤ 1
    ∧ feedbackCountFor wOut2.1.feedback "p1" ≤ 1 := by
  have h := send_certificates_token_upsert_unique wDispatchEnv wDispatchEnv2 wDB
    "e1" "u1" wOut1 wOut2 rfl rfl
    (fun pid => by
      simpa [feedbackCountFor] using
        List.length_filter_le (fun f => f.participant_id == pid) [wFeedback])
  exact ⟨h.1 "p1", h.2 "p1"⟩

/-- Event with feedback disabled, for the direct certificate path. -/
def wEventDirect : Event := { wEvent with id := "e2", feedback_enabled := some false }

/-- Empty loop state over the concrete database. -/
def wStEmpty : RunState :=
  { db := wDB, total := 0, successful := 0, failed := 0, details := [], sent := [] }

/-- Witness for C10: a concrete direct-path step sends exactly one
message whose subject and body had the event-name placeholder replaced
by the empty string. -/
theorem direct_path_event_name_empty_witness :
    ∃ m, (processParticipant wDispatchEnv wEventDirect "http://localhost:5173"
        "org@example.com" "enc" 0 wStEmpty wParticipant).sent = wStEmpty.sent ++ [m]
      ∧ m.subject = pyReplace (pyReplace (wEventDirect.email_subject.getD "Your Participation Certificate") "{name}" wParticipant.name) "{event_name}" ""
      ∧ m.body = pyReplace (pyReplace (wEventDirect.email_body.getD "Congratulations!") "{name}" wParticipant.name) "{event_name}" "" :=
  direct_path_event_name_empty wDispatchEnv wEventDirect "http://localhost:5173"
    "org@example.com" "enc" 0 wStEmpty wParticipant rfl rfl

/-! ## Witness for the compositor failure-mode theorem -/

/-- Render environment where every template load raises. -/
def missingTemplateRenderEnv : RenderEnv :=
  { openImage := fun _ => .error "FileNotFoundError: missing.png"
    convertPdf := fun _ => .error "PDFPageCountError: broken.pdf"
    convertPdfPreview := fun _ => .error "PDFPageCountError: broken.pdf"
    textbbox := fun _ s =>
      if s.isEmpty then { left := 0, top := 0, right := 0, bottom := 0 }
      else { left := 0, top := 0, right := 10 * (s.length : Int), bottom := 20 } }

/-- Witness for C8 (amended): a missing image template and an unreadable
document template surface their errors, and the empty name completes
successfully on a loadable template. -/
theorem generate_certificate_failure_modes_witness :
    generate_certificate missingTemplateRenderEnv emptyNameFontEnv
        "uploads/missing.png" "image" "Ada" 0 500 "Roboto" 60 "#000000" "o.png" "o.pdf"
      = .error "FileNotFoundError: missing.png"
    ∧ generate_certificate missingTemplateRenderEnv emptyNameFontEnv
        "uploads/broken.pdf" "pdf" "Ada" 0 500 "Roboto" 60 "#000000" "o.png" "o.pdf"
      = .error "PDFPageCountError: broken.pdf"
    ∧ generate_certificate emptyNameRenderEnv emptyNameFontEnv
        "uploads/s1_template_cert.png" "image" "" 0 500 "Roboto" 60 "#000000" "o.png" "o.pdf"
      = .ok { draw_x := 500, draw_y := 500, drawn_text := "",
              color_rgb := (0, 0, 0), png_width := 1000, png_height := 700,
              pdf_width := 1000, pdf_height := 700 } := by
  have h1 := (generate_certificate_failure_modes missingTemplateRenderEnv emptyNameFontEnv
    "uploads/missing.png" "image" "Ada" 0 500 "Roboto" 60 "#000000" "o.png" "o.pdf"
    "FileNotFoundError: missing.png").1 (by decide) rfl
  have h2 := (generate_certificate_failure_modes missingTemplateRenderEnv emptyNameFontEnv
    "uploads/broken.pdf" "pdf" "Ada" 0 500 "Roboto" 60 "#000000" "o.png" "o.pdf"
    "PDFPageCountError: broken.pdf").2.1 rfl rfl
  have h3 := (generate_certificate_failure_modes emptyNameRenderEnv emptyNameFontEnv
    "uploads/s1_template_cert.png" "image" "anything" 0 500 "Roboto" 60 "#000000" "o.png" "o.pdf"
    "unused").2.2 1000 700 (0, 0, 0) (by decide) rfl rfl
  exact ⟨h1, h2, h3⟩
